import Mathlib

/-!
Verification of the panic and symbolication subsystem of a bare-metal
kernel (tutorial 17, `kernel/src/symbols.rs` and `kernel/src/panic_wait.rs`).

The Rust code is shallowly embedded: the symbol-table scan becomes a pure
Lean function over a list of records, the stateful slice construction
becomes explicit state passing over an abstract world, and the panic
handler becomes a function producing the trace of observable events of one
invocation (interrupt masking, flag accesses, uptime read, console write,
exit).
-/

namespace KernelSpec

/-- Modelled from the spec: the `Symbol` record type comes from the external
`debug_symbol_types` crate, which is not among the provided sources. Per the
spec, a record is a starting virtual address, a size, and a name, and its
range is the half-open interval `[start, start+size)`. -/
structure Symbol where
  start : Nat
  size : Nat
  name : String
deriving DecidableEq, Repr

/-- Modelled from the spec: `Symbol::contains` (external crate) tests
`r.start ≤ address < r.start + r.size`. -/
def Symbol.contains (r : Symbol) (addr : Nat) : Bool :=
  decide (r.start ≤ addr ∧ addr < r.start + r.size)

/-- Embedding of `lookup_symbol` (symbols.rs): linear scan of the record
table from its start, returning the name of the first record whose range
contains `addr`, and `none` when no record matches. The table argument is
the slice produced by `kernel_symbols_slice`. -/
def lookup_symbol (table : List Symbol) (addr : Nat) : Option String :=
  match table with
  | [] => none
  | i :: rest => if i.contains addr then some i.name else lookup_symbol rest addr

/-- Embedding of the `NUM_KERNEL_SYMBOLS` static (symbols.rs): the value
present before the post-link patch tool runs is the dummy `0`. -/
def NUM_KERNEL_SYMBOLS : Nat := 0

/-- Embedding of `kernel_symbols_slice` (symbols.rs): the slice of `num`
records starting at the section anchor. Record memory is abstracted as a
function from record index to record; the slice reads indices
`0, …, num-1`. -/
def kernel_symbols_slice (mem : Nat → Symbol) (num : Nat) : List Symbol :=
  (List.range num).map mem

/-- `lookup_symbol` as it is called in the kernel: the table is the slice
derived from record memory and the (volatile-read) record count. -/
def kernel_lookup_symbol (mem : Nat → Symbol) (num : Nat) (addr : Nat) :
    Option String :=
  lookup_symbol (kernel_symbols_slice mem num) addr

section LookupLemmas

theorem lookup_symbol_eq_find (table : List Symbol) (addr : Nat) :
    lookup_symbol table addr =
      (table.find? (fun r => r.contains addr)).map Symbol.name := by
  induction table with
  | nil => rfl
  | cons i rest ih =>
      by_cases h : i.contains addr = true
      · simp [lookup_symbol, List.find?, h]
      · simp only [Bool.not_eq_true] at h
        simp [lookup_symbol, List.find?, h, ih]

theorem lookup_symbol_eq_none_iff (table : List Symbol) (addr : Nat) :
    lookup_symbol table addr = none ↔
      ∀ r ∈ table, r.contains addr = false := by
  induction table with
  | nil => simp [lookup_symbol]
  | cons i rest ih =>
      by_cases h : i.contains addr = true
      · simp [lookup_symbol, h]
      · simp only [Bool.not_eq_true] at h
        simp [lookup_symbol, h, ih]

theorem lookup_symbol_first_match (pre : List Symbol) (r : Symbol)
    (post : List Symbol) (addr : Nat)
    (hr : r.contains addr = true)
    (hpre : ∀ p ∈ pre, p.contains addr = false) :
    lookup_symbol (pre ++ r :: post) addr = some r.name := by
  induction pre with
  | nil => simp [lookup_symbol, hr]
  | cons p pre ih =>
      have hp : p.contains addr = false := hpre p (by simp)
      simp only [List.cons_append, lookup_symbol, hp]
      simp only [Bool.false_eq_true, if_false]
      exact ih (fun q hq => hpre q (by simp [hq]))

end LookupLemmas

/-! ## Panic controller (panic_wait.rs)

One invocation of the panic handler is embedded as the list of observable
events it performs, in program order. The shared `PANIC_IN_PROGRESS` flag
is the `flag` argument (`false` = "idle", `true` = "panicking"); the
uptime source and the success of the console write are an environment. -/

/-- Left-pad a string with copies of `c` to width `w`, the semantics of
Rust format alignment such as the seconds field of the panic timestamp. -/
def leftPad (c : Char) (w : Nat) (s : String) : String :=
  String.mk (List.replicate (w - s.length) c) ++ s

/-- The diagnostic text built by the `panic_println!` call in `panic`
(panic_wait.rs). The seconds field is right-aligned to width 3, the
microseconds field zero-padded to width 6; `format_args_nl!` appends a
trailing newline. -/
def panicMessage (secs micros : Nat) (file : String) (line col : Nat)
    (msg : String) : String :=
  "[  " ++ leftPad ' ' 3 (toString secs) ++ "." ++ leftPad '0' 6 (toString micros) ++
  "] Kernel panic!\n\nPanic location:\n      File \x27" ++ file ++ "\x27, line " ++
  toString line ++ ", column " ++ toString col ++ "\n\n" ++ msg ++ "\n"

/-- The observable events of the panic path: masking asynchronous
exceptions, the two relaxed atomic accesses to `PANIC_IN_PROGRESS`,
reading the uptime, a (successful) console write of the diagnostic, a
failed console write, and transferring control to `_panic_exit`. -/
inductive Event where
  | irqMask
  | flagLoad (v : Bool)
  | flagStore (v : Bool)
  | readUptime
  | emit (s : String)
  | writeFail
  | exitStrategy
deriving DecidableEq, Repr

/-- The payload of `&PanicInfo`: an optional source location (file, line,
column) and an optional message. -/
structure PanicInfo where
  location : Option (String × Nat × Nat)
  message : Option String
deriving DecidableEq, Repr

/-- Environment of one panic invocation: the value the uptime source
returns, and whether the write through the panic console succeeds. -/
structure Env where
  uptimeSecs : Nat
  uptimeMicros : Nat
  writeOk : Bool
deriving DecidableEq, Repr

/-- The trace of a panic-handler invocation that finds `PANIC_IN_PROGRESS`
already `true`: `local_irq_mask`, then `panic_prevent_reenter` loads the
flag, sees `true`, and calls `_panic_exit` — no uptime read, no
formatting, no print. This equals `panic true env info` definitionally. -/
def panic_reenter_trace : List Event :=
  [.irqMask, .flagLoad true, .exitStrategy]

/-- Embedding of the `panic` handler (panic_wait.rs), as the event trace of
one invocation given the current value `flag` of `PANIC_IN_PROGRESS`.

Program order, from the source: `local_irq_mask`; `panic_prevent_reenter`
(relaxed load of the flag, and either a relaxed store of `true` followed by
return, or `_panic_exit`); read the uptime; extract location (defaulting to
`("???", 0, 0)`) and message (defaulting to `""`); `panic_println!`, whose
`_panic_print` unwraps the write result — on write failure the `unwrap`
panics, re-entering the handler with the flag now `true` (that nested
invocation's trace is `panic_reenter_trace`); finally `_panic_exit`. -/
def panic (flag : Bool) (env : Env) (info : PanicInfo) : List Event :=
  match flag with
  | true => panic_reenter_trace
  | false =>
    let loc := match info.location with
      | some l => l
      | none => ("???", 0, 0)
    let msg := match info.message with
      | some m => m
      | none => ""
    let text := panicMessage env.uptimeSecs env.uptimeMicros loc.1 loc.2.1 loc.2.2 msg
    .irqMask :: .flagLoad false :: .flagStore true :: .readUptime ::
      (if env.writeOk then [.emit text, .exitStrategy]
       else .writeFail :: panic_reenter_trace)

/-- Whether an event is the printing of a diagnostic. -/
def isEmitEvent : Event → Bool
  | .emit _ => true
  | _ => false

/-! ## Exit strategy (panic_wait.rs, `_panic_exit`) -/

/-- The two terminal actions `_panic_exit` can take, from the source:
`cpu::wait_forever()` and `cpu::qemu_exit_failure()`. -/
inductive ExitAction where
  | waitForever
  | qemuExitFailure
deriving DecidableEq, Repr

/-- Embedding of `_panic_exit` (panic_wait.rs): the `cfg` on the feature
`test_build` selects at build time which action runs — `qemu_exit_failure`
in a test-harness build, `wait_forever` otherwise. -/
def _panic_exit (test_build : Bool) : ExitAction :=
  if test_build then .qemuExitFailure else .waitForever

/-- What the host observes of an exit action. -/
inductive ExitEffect where
  | haltForever
  | signalHostFailure
deriving DecidableEq, Repr

/-- Modelled from the spec: the bodies of `cpu::wait_forever` and
`cpu::qemu_exit_failure` are not among the provided sources. Per the spec,
the former halts the processor indefinitely and the latter signals failure
to the hosting test runner as a failed exit code. -/
def ExitAction.effect : ExitAction → ExitEffect
  | .waitForever => .haltForever
  | .qemuExitFailure => .signalHostFailure

/-- Modelled from the spec: neither exit effect ever returns control to the
caller ("the override must never return"). -/
def ExitEffect.returnsControl : ExitEffect → Bool
  | _ => false

/-! ## Flag accesses of `panic_prevent_reenter` under interleaving

`panic_prevent_reenter` (panic_wait.rs) performs a relaxed `load` of
`PANIC_IN_PROGRESS` and, when it read `false`, a separate relaxed `store`
of `true`. To examine atomicity we run two invocations of the guard
against the shared flag under an explicit interleaving schedule, one
primitive flag access per step. -/

/-- Progress of one invocation of the reentrancy guard: `pc = 0` — about to
perform the load; `pc = 1` — read `false`, about to perform the store;
`pc = 2` — finished, with `outcome = some true` when the invocation
returned to the caller (proceeds to print) and `outcome = some false` when
it routed to `_panic_exit`. -/
structure GuardCtx where
  pc : Nat
  outcome : Option Bool
deriving DecidableEq, Repr

/-- A guard invocation that has not yet performed any flag access. -/
def guardInit : GuardCtx := ⟨0, none⟩

/-- One primitive flag access of `panic_prevent_reenter`, as written in the
source: the load (pc 0) decides between exiting and moving on to the
store; the store (pc 1) writes `true` and returns. Returns the new flag
value and the advanced context. -/
def guardStep (flag : Bool) (c : GuardCtx) : Bool × GuardCtx :=
  match c.pc with
  | 0 => if flag then (flag, ⟨2, some false⟩) else (flag, ⟨1, none⟩)
  | 1 => (true, ⟨2, some true⟩)
  | _ => (flag, c)

/-- The guard as the claim describes it: the test and the set fused into a
single atomic test-and-set step, with no intermediate point. -/
def tasStep (flag : Bool) (c : GuardCtx) : Bool × GuardCtx :=
  match c.pc with
  | 0 => if flag then (flag, ⟨2, some false⟩) else (true, ⟨2, some true⟩)
  | _ => (flag, c)

/-- Run two guard invocations `a` and `b` against the shared flag under a
schedule: `true` picks `a` for the next primitive step, `false` picks
`b`. -/
def runSched : List Bool → Bool → GuardCtx → GuardCtx → Bool × GuardCtx × GuardCtx
  | [], flag, a, b => (flag, a, b)
  | true :: rest, flag, a, b =>
      let s := guardStep flag a
      runSched rest s.1 s.2 b
  | false :: rest, flag, a, b =>
      let s := guardStep flag b
      runSched rest s.1 a s.2

/-- `runSched` with the single-step test-and-set of the claim. -/
def runSchedTas : List Bool → Bool → GuardCtx → GuardCtx → Bool × GuardCtx × GuardCtx
  | [], flag, a, b => (flag, a, b)
  | true :: rest, flag, a, b =>
      let s := tasStep flag a
      runSchedTas rest s.1 s.2 b
  | false :: rest, flag, a, b =>
      let s := tasStep flag b
      runSchedTas rest s.1 a s.2

/-- Both invocations returned to their callers, i.e. both would go on to
print a diagnostic. -/
def bothProceed (r : Bool × GuardCtx × GuardCtx) : Bool :=
  decide (r.2.1.outcome = some true) && decide (r.2.2.outcome = some true)

/-! ## `lookup_symbol` as a state-passing computation

To state that `lookup_symbol` has no side effects we embed it a second
time, threading the observable kernel state through every primitive
operation the Rust code performs: the volatile read of
`NUM_KERNEL_SYMBOLS` and the reads of record memory. Neither primitive
writes, exactly as in the source, so each returns the world unchanged. -/

/-- The observable state `lookup_symbol` runs against: record memory of the
kernel-symbols section, the count word, and an abstract summary of all
remaining observable kernel state. -/
structure World where
  records : Nat → Symbol
  numSymbols : Nat
  rest : Nat

/-- The volatile read of `NUM_KERNEL_SYMBOLS` in `kernel_symbols_slice`
(symbols.rs): a read, so the world is returned unchanged. -/
def read_num_volatile (w : World) : Nat × World := (w.numSymbols, w)

/-- Reading the record at index `i` of the section (the slice indexing
inside the `for` loop of `lookup_symbol`): a read, so the world is
returned unchanged. -/
def read_record (i : Nat) (w : World) : Symbol × World := (w.records i, w)

/-- The scan loop of `lookup_symbol`, state-passing: examine `k` records
starting at index `i`, returning at the first record containing `addr`. -/
def lookup_scan (addr : Nat) : Nat → Nat → World → Option String × World
  | _, 0, w => (none, w)
  | i, k + 1, w =>
      let r := read_record i w
      if r.1.contains addr then (some r.1.name, r.2)
      else lookup_scan addr (i + 1) k r.2

/-- `lookup_symbol` as the kernel executes it, state-passing: read the
count word (volatile), then scan the records from index 0. -/
def lookup_symbol_st (addr : Nat) (w : World) : Option String × World :=
  let n := read_num_volatile w
  lookup_scan addr 0 n.1 n.2

theorem lookup_scan_world (addr i k : Nat) (w : World) :
    (lookup_scan addr i k w).2 = w := by
  induction k generalizing i with
  | zero => rfl
  | succ k ih =>
      by_cases h : (w.records i).contains addr = true
      · simp [lookup_scan, read_record, h]
      · simp only [Bool.not_eq_true] at h
        simp [lookup_scan, read_record, h, ih]

theorem lookup_scan_fst (addr i k : Nat) (w : World) :
    (lookup_scan addr i k w).1 =
      lookup_symbol ((List.range k).map (fun j => w.records (i + j))) addr := by
  induction k generalizing i with
  | zero => rfl
  | succ k ih =>
      rw [List.range_succ_eq_map]
      by_cases h : (w.records i).contains addr = true
      · simp [lookup_scan, read_record, h, lookup_symbol]
      · simp only [Bool.not_eq_true] at h
        simp only [lookup_scan, read_record, h, Bool.false_eq_true, if_false,
          List.map_cons, List.map_map, lookup_symbol, Nat.add_zero]
        rw [ih (i + 1)]
        congr 1
        apply List.map_congr_left
        intro j _
        simp only [Function.comp]
        congr 1
        omega

/-! ## Claim theorems -/

/-- C2 counterexample: the claim's boundary sub-claim — "for a record with
start S and size N, lookup_symbol(S) returns that record's name" — fails as
stated, for every table. In the table `[⟨0,2,"a"⟩, ⟨1,0,"b"⟩]` the record
`⟨1,0,"b"⟩` has start 1, yet `lookup_symbol 1` returns `"a"` (an earlier
overlapping record wins, per the tie-break the same claim documents); and
in `[⟨5,0,"c"⟩]` the record has start 5, yet `lookup_symbol 5` returns
`none` (a size-0 record's half-open range does not contain its own
start). -/
theorem lookup_symbol_boundary_counterexample :
    lookup_symbol [⟨0, 2, "a"⟩, ⟨1, 0, "b"⟩] 1 = some "a" ∧
    lookup_symbol [⟨5, 0, "c"⟩] 5 = none := by
  constructor <;> rfl

/-- C2 (amended): for every table and address, `lookup_symbol` returns the
name of the first record in table order whose half-open range
`[start, start+size)` contains the address, and `none` exactly when no
record's range contains it; the boundary law `lookup_symbol S = some name`
holds for a record with start `S` provided its size is positive and no
earlier record's range contains `S`. -/
theorem lookup_symbol_first_match_spec (t : List Symbol) (a : Nat) :
    (lookup_symbol t a = (t.find? (fun r => r.contains a)).map Symbol.name) ∧
    (lookup_symbol t a = none ↔ ∀ r ∈ t, r.contains a = false) ∧
    (∀ pre r post, t = pre ++ r :: post → 0 < r.size →
      (∀ p ∈ pre, p.contains r.start = false) →
      lookup_symbol t r.start = some r.name) := by
  refine ⟨lookup_symbol_eq_find t a, lookup_symbol_eq_none_iff t a, ?_⟩
  rintro pre r post rfl hsize hpre
  have hr : r.contains r.start = true := by
    simp [Symbol.contains]
    omega
  exact lookup_symbol_first_match pre r post r.start hr hpre

/-- C2 witness: the amended boundary law at a concrete table — the second
record starts at 4 with size 2, no earlier record covers 4, so lookup at 4
returns its name. -/
theorem lookup_symbol_boundary_witness :
    lookup_symbol [⟨0, 2, "a"⟩, ⟨4, 2, "b"⟩] 4 = some "b" :=
  (lookup_symbol_first_match_spec [⟨0, 2, "a"⟩, ⟨4, 2, "b"⟩] 4).2.2
    [⟨0, 2, "a"⟩] ⟨4, 2, "b"⟩ [] rfl (by decide) (by decide)

/-- C3: with the unpatched default record count 0, the slice of records is
empty — no record memory is read — and `lookup_symbol` returns `none` for
every address (including 0) and every content of record memory. -/
theorem lookup_unpatched_default (mem : Nat → Symbol) (addr : Nat) :
    kernel_symbols_slice mem NUM_KERNEL_SYMBOLS = [] ∧
    kernel_lookup_symbol mem NUM_KERNEL_SYMBOLS addr = none ∧
    kernel_lookup_symbol mem NUM_KERNEL_SYMBOLS 0 = none := by
  exact ⟨rfl, rfl, rfl⟩

/-- C10: `lookup_symbol`, run as a state-passing computation whose
primitives are exactly the reads the Rust code performs, leaves the world
(record memory, count word, and all other observable state) unchanged; a
second call against the resulting state returns the same result; and the
result agrees with the pure table lookup. -/
theorem lookup_symbol_no_side_effects (w : World) (addr : Nat) :
    (lookup_symbol_st addr w).2 = w ∧
    (lookup_symbol_st addr ((lookup_symbol_st addr w).2)).1 =
      (lookup_symbol_st addr w).1 ∧
    (lookup_symbol_st addr w).1 =
      kernel_lookup_symbol w.records w.numSymbols addr := by
  have hW : (lookup_symbol_st addr w).2 = w :=
    lookup_scan_world addr 0 w.numSymbols w
  refine ⟨hW, by rw [hW], ?_⟩
  have h := lookup_scan_fst addr 0 w.numSymbols w
  simpa [lookup_symbol_st, read_num_volatile, kernel_lookup_symbol,
    kernel_symbols_slice] using h

/-- C1: a reentrant invocation of the panic handler (flag already
"panicking") performs only the interrupt mask and the flag load before
transferring to the exit strategy — no uptime read, no formatting, no
print, no recursion; and every invocation, whatever the flag, the
environment and the fault, prints at most one diagnostic and ends at the
exit strategy. -/
theorem panic_reenter_idempotent (env : Env) (info : PanicInfo) :
    panic true env info = [.irqMask, .flagLoad true, .exitStrategy] ∧
    (∀ flag, (panic flag env info).countP isEmitEvent ≤ 1) ∧
    (∀ flag, (panic flag env info).getLast? = some .exitStrategy) := by
  refine ⟨rfl, ?_, ?_⟩ <;> intro flag <;> cases flag <;>
    cases hw : env.writeOk <;>
    simp [panic, panic_reenter_trace, hw, isEmitEvent]

/-- C7: in every invocation of the panic handler — first or nested, with
any environment and fault — the very first event is the masking of
asynchronous exceptions, and the flag test follows it: the trace starts
`irqMask :: flagLoad flag :: …`. -/
theorem panic_masks_irq_first (flag : Bool) (env : Env) (info : PanicInfo) :
    ∃ rest, panic flag env info = .irqMask :: .flagLoad flag :: rest := by
  cases flag
  · cases hw : env.writeOk <;>
      simp [panic, panic_reenter_trace, hw]
  · exact ⟨_, rfl⟩

/-- C4 counterexample: when the console write fails, the failure is not
suppressed — `_panic_print`'s `unwrap` raises a nested fault, visible in
the trace as a second handler invocation (a second `irqMask` and flag
load) after the failed write. -/
theorem panic_write_failure_counterexample :
    panic false ⟨3, 250000, false⟩
        ⟨some ("foo.rs", 42, 7), some "index out of bounds"⟩ =
      [.irqMask, .flagLoad false, .flagStore true, .readUptime, .writeFail,
       .irqMask, .flagLoad true, .exitStrategy] ∧
    (panic false ⟨3, 250000, false⟩
        ⟨some ("foo.rs", 42, 7), some "index out of bounds"⟩).count .irqMask = 2 := by
  constructor <;> rfl

/-- C4 (amended): if the write through the panic console fails, the
`unwrap` in `_panic_print` raises a nested fault rather than suppressing
the failure; the reentrancy guard catches that nested fault, so no
diagnostic is printed and the exit strategy still runs — the handler
cannot fail in a way that prevents reaching the exit strategy. -/
theorem panic_write_failure_still_exits (env : Env) (info : PanicInfo)
    (h : env.writeOk = false) :
    panic false env info =
      [.irqMask, .flagLoad false, .flagStore true, .readUptime, .writeFail] ++
        panic_reenter_trace ∧
    (panic false env info).countP isEmitEvent = 0 ∧
    (panic false env info).getLast? = some .exitStrategy := by
  refine ⟨?_, ?_, ?_⟩ <;> simp [panic, panic_reenter_trace, h, isEmitEvent]

/-- C4 witness: the amended theorem at a concrete failing environment. -/
theorem panic_write_failure_witness :
    panic false ⟨3, 250000, false⟩ ⟨none, none⟩ =
      [.irqMask, .flagLoad false, .flagStore true, .readUptime, .writeFail] ++
        panic_reenter_trace ∧
    (panic false ⟨3, 250000, false⟩ ⟨none, none⟩).countP isEmitEvent = 0 ∧
    (panic false ⟨3, 250000, false⟩ ⟨none, none⟩).getLast? = some .exitStrategy :=
  panic_write_failure_still_exits ⟨3, 250000, false⟩ ⟨none, none⟩ rfl

/-- C8: a fault with no location information gets the unknown sentinel
(file `"???"`, line 0, column 0), and a fault with no message gets the
empty message; in both cases formatting succeeds and exactly one
diagnostic is printed. -/
theorem panic_missing_location_message (env : Env) (file : String)
    (line col : Nat) (h : env.writeOk = true) :
    panic false env ⟨none, none⟩ =
      [.irqMask, .flagLoad false, .flagStore true, .readUptime,
       .emit (panicMessage env.uptimeSecs env.uptimeMicros "???" 0 0 ""),
       .exitStrategy] ∧
    panic false env ⟨some (file, line, col), none⟩ =
      [.irqMask, .flagLoad false, .flagStore true, .readUptime,
       .emit (panicMessage env.uptimeSecs env.uptimeMicros file line col ""),
       .exitStrategy] ∧
    (panic false env ⟨none, none⟩).countP isEmitEvent = 1 := by
  refine ⟨?_, ?_, ?_⟩ <;> simp [panic, h, isEmitEvent]

/-- C8 witness: the theorem at a concrete environment with a succeeding
console write. -/
theorem panic_missing_location_witness :
    panic false ⟨3, 250000, true⟩ ⟨none, none⟩ =
      [.irqMask, .flagLoad false, .flagStore true, .readUptime,
       .emit (panicMessage 3 250000 "???" 0 0 ""), .exitStrategy] ∧
    panic false ⟨3, 250000, true⟩ ⟨some ("foo.rs", 42, 7), none⟩ =
      [.irqMask, .flagLoad false, .flagStore true, .readUptime,
       .emit (panicMessage 3 250000 "foo.rs" 42 7 ""), .exitStrategy] ∧
    (panic false ⟨3, 250000, true⟩ ⟨none, none⟩).countP isEmitEvent = 1 :=
  panic_missing_location_message ⟨3, 250000, true⟩ "foo.rs" 42 7 rfl

/-- C6: the exit strategy is selected by the build-time `test_build`
feature — QEMU failure exit in a test-harness build, halt forever in a
production build — and in both configurations its effect never returns
control; `spec-modelled` for the bodies of the two `cpu` routines, which
are outside the provided sources. -/
theorem panic_exit_selection (b : Bool) :
    _panic_exit true = .qemuExitFailure ∧
    _panic_exit false = .waitForever ∧
    (_panic_exit true).effect = .signalHostFailure ∧
    (_panic_exit false).effect = .haltForever ∧
    ((_panic_exit b).effect).returnsControl = false := by
  cases b <;> exact ⟨rfl, rfl, rfl, rfl, rfl⟩

set_option maxRecDepth 8192

/-- C5 counterexample: the diagnostic for the scenario (file "foo.rs",
line 42, column 7, message "index out of bounds", uptime 3 s + 250000 µs)
does not contain the substring `[  3.250000]` — with seconds right-aligned
to width 3, there are four characters of space between `[` and `3`, not
two. -/
theorem panic_timestamp_counterexample :
    ¬ ("[  3.250000]".toList <:+:
        (panicMessage 3 250000 "foo.rs" 42 7 "index out of bounds").toList) := by
  decide

/-- C5 (amended): for the scenario the diagnostic contains the substrings
`File 'foo.rs', line 42, column 7` and `index out of bounds`, and begins
with the timestamp `[    3.250000]` — two literal spaces plus the seconds
field right-aligned to width 3; the full text follows the template
`[  <secs, width 3>.<micros, zero-padded 6>] Kernel panic!\n\nPanic
location:\n      File '<file>', line <line>, column <column>\n\n<message>`
with a trailing newline, and the handler prints exactly that text. -/
theorem panic_message_scenario :
    panicMessage 3 250000 "foo.rs" 42 7 "index out of bounds" =
      "[    3.250000] Kernel panic!\n\nPanic location:\n      File \x27foo.rs\x27, line 42, column 7\n\nindex out of bounds\n" ∧
    ("File \x27foo.rs\x27, line 42, column 7".toList <:+:
      (panicMessage 3 250000 "foo.rs" 42 7 "index out of bounds").toList) ∧
    ("index out of bounds".toList <:+:
      (panicMessage 3 250000 "foo.rs" 42 7 "index out of bounds").toList) ∧
    ("[    3.250000]".toList <+:
      (panicMessage 3 250000 "foo.rs" 42 7 "index out of bounds").toList) ∧
    panic false ⟨3, 250000, true⟩
        ⟨some ("foo.rs", 42, 7), some "index out of bounds"⟩ =
      [.irqMask, .flagLoad false, .flagStore true, .readUptime,
       .emit (panicMessage 3 250000 "foo.rs" 42 7 "index out of bounds"),
       .exitStrategy] := by
  exact ⟨by decide, by decide, by decide, by decide, rfl⟩

/-- Helper for C9: for the single-step test-and-set version of the guard,
no schedule lets both invocations proceed, given the invariant that a
proceeded invocation implies the flag is set and at most one has proceeded
so far. -/
theorem runSchedTas_at_most_one (sched : List Bool) (flag : Bool)
    (a b : GuardCtx)
    (hinv : a.outcome = some true ∨ b.outcome = some true → flag = true)
    (hone : ¬(a.outcome = some true ∧ b.outcome = some true)) :
    bothProceed (runSchedTas sched flag a b) = false := by
  induction sched generalizing flag a b with
  | nil =>
      simp only [runSchedTas, bothProceed, Bool.and_eq_false_iff,
        decide_eq_false_iff_not]
      tauto
  | cons pick rest ih =>
      cases pick
      · simp only [runSchedTas]
        rcases hpc : b.pc with _ | n
        · cases hf : flag
          · have hstep : tasStep false b = (true, ⟨2, some true⟩) := by
              simp [tasStep, hpc]
            rw [hstep]
            refine ih true a ⟨2, some true⟩ (fun _ => rfl) ?_
            simp only [not_and]
            intro ha _
            exact absurd (hinv (Or.inl ha)) (by simp [hf])
          · have hstep : tasStep true b = (true, ⟨2, some false⟩) := by
              simp [tasStep, hpc]
            rw [hstep]
            refine ih true a ⟨2, some false⟩ (fun _ => rfl) ?_
            simp
        · have hstep : tasStep flag b = (flag, b) := by
            simp [tasStep, hpc]
          rw [hstep]
          exact ih flag a b hinv hone
      · simp only [runSchedTas]
        rcases hpc : a.pc with _ | n
        · cases hf : flag
          · have hstep : tasStep false a = (true, ⟨2, some true⟩) := by
              simp [tasStep, hpc]
            rw [hstep]
            refine ih true ⟨2, some true⟩ b (fun _ => rfl) ?_
            simp only [not_and]
            intro _ hb
            exact absurd (hinv (Or.inr hb)) (by simp [hf])
          · have hstep : tasStep true a = (true, ⟨2, some false⟩) := by
              simp [tasStep, hpc]
            rw [hstep]
            refine ih true ⟨2, some false⟩ b (fun _ => rfl) ?_
            simp
        · have hstep : tasStep flag a = (flag, a) := by
            simp [tasStep, hpc]
          rw [hstep]
          exact ih flag a b hinv hone


/-- C9 counterexample: the flag transition is not a single atomic
test-and-set — `panic_prevent_reenter` performs a separate relaxed load
and relaxed store, and between them there is an interleaving point: under
the schedule A-load, B-load, A-store, B-store, both invocations of the
guard observe "idle" and both proceed, an outcome a single test-and-set
step can never produce. -/
theorem guard_interleaving_counterexample :
    bothProceed (runSched [true, false, true, false] false guardInit guardInit) =
      true := by
  decide

/-- C9 (amended): the idle-to-panicking transition is implemented as a
relaxed atomic load followed by a separate relaxed atomic store, which
does admit an interleaving point between the test and the set. A genuine
single-step test-and-set admits none — under no schedule do both
invocations proceed — and the load/store pair recovers exactly that
behavior when each invocation runs without interleaving (as guaranteed by
the interrupt masking that precedes the guard): run serially from "idle",
the first invocation proceeds and the second is routed to the exit
strategy. -/
theorem guard_load_store_not_single_tas (sched : List Bool) :
    bothProceed (runSchedTas sched false guardInit guardInit) = false ∧
    runSched [true, true, false, false] false guardInit guardInit =
      (true, ⟨2, some true⟩, ⟨2, some false⟩) ∧
    runSched [false, false, true, true] false guardInit guardInit =
      (true, ⟨2, some false⟩, ⟨2, some true⟩) := by
  refine ⟨?_, by decide, by decide⟩
  exact runSchedTas_at_most_one sched false guardInit guardInit
    (by simp [guardInit]) (by simp [guardInit])

end KernelSpec
